import Mathlib

/-!
Verification of the iterative search orchestration core of the WebSearchAI
repository (`src/lib/api/orchestrator.ts`, `src/lib/api/search.ts`).

The TypeScript code is shallowly embedded: every relevant source function is
translated into an executable Lean definition over explicit data.  JavaScript
strings are modelled as Lean `String`s operated on through their character
lists (the source only manipulates ASCII-ish text); JavaScript numbers that
can become `NaN` are modelled by `JsNum`; values produced by `JSON.parse` are
modelled by `JValue`.  Asynchronous service calls (the generation and search
clients) are modelled as oracle arguments: the embedding receives the value
the service would have produced and threads it through the same control flow
as the source.
-/

/-! ## JavaScript string primitives -/

/-- Characters treated as whitespace by JS `trim` / the regex class `\s`
(ASCII subset; the unicode space characters never appear in the texts the
theorems below use). -/
def jsSpace (c : Char) : Bool :=
  c = ' ' || c = '\t' || c = '\n' || c = '\r' || c = '\x0b' || c = '\x0c' ||
  c = Char.ofNat 0xa0 || c = Char.ofNat 0x2028 || c = Char.ofNat 0x2029 ||
  c = Char.ofNat 0xfeff

/-- JS `String.prototype.trim` (ASCII whitespace). -/
def jsTrim (s : String) : String :=
  String.mk (((s.toList.dropWhile jsSpace).reverse.dropWhile jsSpace).reverse)

/-- ASCII lowering of one character, as JS `toLowerCase` acts on the ASCII
range (the only range exercised by the keyword tables of the source). -/
def jsLowerChar (c : Char) : Char :=
  if 'A' ≤ c ∧ c ≤ 'Z' then Char.ofNat (c.toNat + 32) else c

/-- JS `String.prototype.toLowerCase` restricted to ASCII. -/
def jsToLower (s : String) : String :=
  String.mk (s.toList.map jsLowerChar)

/-- Boolean list prefix test (used to implement substring containment). -/
def listStarts : List Char → List Char → Bool
  | [], _ => true
  | _ :: _, [] => false
  | a :: as, b :: bs => a == b && listStarts as bs

/-- Boolean substring containment on character lists. -/
def listHasSub (sub : List Char) : List Char → Bool
  | [] => sub.isEmpty
  | c :: rest => listStarts sub (c :: rest) || listHasSub sub rest

/-- JS `String.prototype.includes`. -/
def jsIncludes (s sub : String) : Bool :=
  listHasSub sub.toList s.toList

/-- JS `String.prototype.split(sep)` for a one-character separator. -/
def jsSplitChar (sep : Char) (s : String) : List String :=
  (go s.toList).map String.mk
where
  go : List Char → List (List Char)
    | [] => [[]]
    | c :: rest =>
      if c = sep then [] :: go rest
      else match go rest with
        | [] => [[c]]
        | g :: gs => (c :: g) :: gs

/-- Characters the regex metacharacter `.` (no `s` flag) does not match:
the JS line terminators. -/
def jsDotMatch (c : Char) : Bool :=
  !(c = '\n' || c = '\r' || c = Char.ofNat 0x2028 || c = Char.ofNat 0x2029)

/-! ## Data model of search results (`search.ts`) -/

/-- One search result item (`SearchResult` in `search.ts`).  The optional
`cacheId`/`metadata` fields are never read by the orchestrator and are
omitted. -/
structure SearchResult where
  title : String
  link : String
  snippet : String
  displayLink : String
  formattedUrl : String
  htmlTitle : String
  htmlSnippet : String
deriving DecidableEq, Repr

/-- The `searchInformation` sub-object of a `SearchResponse`. -/
structure SearchInformation where
  searchTime : ℚ
  totalResults : String
  formattedTotalResults : String
deriving DecidableEq, Repr

/-- A search response batch (`SearchResponse` in `search.ts`).
`searchInformation` is `Option`-valued so that the value produced by
spreading `undefined` (see `aggregateResults` on an empty input) can be
represented: `none` models the field being absent. -/
structure SearchResponse where
  items : List SearchResult
  searchInformation : Option SearchInformation
  totalResults : ℕ
  hasNextPage : Bool
  nextPageStartIndex : Option ℕ
deriving DecidableEq, Repr

/-- The orchestration configuration (`SearchOrchestrationConfig`), restricted
to the fields the embedded functions read.  API keys, model names and the
flags that only gate logging are omitted. -/
structure OrchestrationConfig where
  maxSearchResults : ℕ
  maxGeneratedQueries : ℕ
  enableIterativeSearch : Bool
  maxSearchIterations : ℕ
  completenessThreshold : ℚ
  maxFollowupQueries : ℕ
deriving DecidableEq, Repr

/-- The defaults installed by the `SearchOrchestrator` constructor. -/
def defaultConfig : OrchestrationConfig :=
  { maxSearchResults := 10
    maxGeneratedQueries := 5
    enableIterativeSearch := false
    maxSearchIterations := 2
    completenessThreshold := 80
    maxFollowupQueries := 3 }

/-! ## `SearchOrchestrator.aggregateResults` -/

/-- The deduplication loop of `aggregateResults`: walk the flattened item
list keeping a set of already-seen URLs (`seenUrls` in the source, modelled
as the list of seen links) and keep an item only when its link is new. -/
def dedupByUrlGo (seen : List String) : List SearchResult → List SearchResult
  | [] => []
  | item :: rest =>
    if item.link ∈ seen then dedupByUrlGo seen rest
    else item :: dedupByUrlGo (item.link :: seen) rest

/-- Deduplication by URL exactly as the `for` loop of `aggregateResults`
performs it, starting from an empty seen set. -/
def dedupByUrl (allItems : List SearchResult) : List SearchResult :=
  dedupByUrlGo [] allItems

/-- `SearchOrchestrator.aggregateResults` (orchestrator source, lines
724-749): flatten all batches, deduplicate by URL keeping first occurrences,
truncate to `maxSearchResults`, and rebuild a response on top of the first
batch.  On an empty input the source spreads `searchResponses[0]`, which is
`undefined`; spreading `undefined` into an object literal is a no-op in JS,
so the call returns normally and every field not explicitly overridden is
absent — modelled by the `none` base below. -/
def aggregateResults (cfg : OrchestrationConfig)
    (searchResponses : List SearchResponse) : SearchResponse :=
  let allItems := searchResponses.flatMap (·.items)
  let uniqueItems := dedupByUrl allItems
  let limitedItems := uniqueItems.take cfg.maxSearchResults
  let base := searchResponses.head?
  { items := limitedItems
    searchInformation := match base with
      | some b => b.searchInformation
      | none => none
    totalResults := limitedItems.length
    hasNextPage := false
    nextPageStartIndex := none }

/-- Modelled from the specification wording for the refinement comparison:
"Deduplicates by URL, keeping the first occurrence".  An item is kept and all
later items carrying the same URL are dropped. -/
def keepFirstByUrl : List SearchResult → List SearchResult
  | [] => []
  | item :: rest =>
    item :: keepFirstByUrl (rest.filter (fun j => j.link ≠ item.link))
termination_by l => l.length
decreasing_by
  simp only [List.length_cons]
  exact Nat.lt_succ_of_le (List.length_filter_le _ _)

theorem dedupByUrlGo_eq_keepFirst (l : List SearchResult) :
    ∀ seen, dedupByUrlGo seen l
      = keepFirstByUrl (l.filter (fun j => decide (j.link ∉ seen))) := by
  induction l with
  | nil => intro seen; simp [dedupByUrlGo, keepFirstByUrl]
  | cons item rest ih =>
    intro seen
    by_cases hmem : item.link ∈ seen
    · show (if item.link ∈ seen then dedupByUrlGo seen rest
          else item :: dedupByUrlGo (item.link :: seen) rest) = _
      rw [if_pos hmem, List.filter_cons]
      have hp : decide (item.link ∉ seen) = false := by simp [hmem]
      rw [hp]
      simpa using ih seen
    · show (if item.link ∈ seen then dedupByUrlGo seen rest
          else item :: dedupByUrlGo (item.link :: seen) rest) = _
      rw [if_neg hmem, List.filter_cons]
      have hp : decide (item.link ∉ seen) = true := by simp [hmem]
      rw [hp, if_pos rfl, keepFirstByUrl, List.filter_filter]
      have hpred : ∀ j : SearchResult,
          (decide (j.link ≠ item.link) && decide (j.link ∉ seen))
            = decide (j.link ∉ item.link :: seen) := by
        intro j
        by_cases h1 : j.link = item.link <;> by_cases h2 : j.link ∈ seen <;>
          simp [h1, h2]
      rw [List.filter_congr (fun j _ => hpred j), ih (item.link :: seen)]

theorem dedupByUrl_eq_keepFirstByUrl (l : List SearchResult) :
    dedupByUrl l = keepFirstByUrl l := by
  have h := dedupByUrlGo_eq_keepFirst l []
  simpa [dedupByUrl, List.filter_eq_self] using h

theorem dedupByUrlGo_links (l : List SearchResult) : ∀ seen,
    ((dedupByUrlGo seen l).map (·.link)).Nodup
      ∧ ∀ x ∈ dedupByUrlGo seen l, x.link ∉ seen := by
  induction l with
  | nil => intro seen; simp [dedupByUrlGo]
  | cons item rest ih =>
    intro seen
    by_cases hmem : item.link ∈ seen
    · have hgo : dedupByUrlGo seen (item :: rest) = dedupByUrlGo seen rest := by
        show (if item.link ∈ seen then _ else _) = _
        rw [if_pos hmem]
      rw [hgo]; exact ih seen
    · obtain ⟨hnd, hfresh⟩ := ih (item.link :: seen)
      have hgo : dedupByUrlGo seen (item :: rest)
          = item :: dedupByUrlGo (item.link :: seen) rest := by
        show (if item.link ∈ seen then _ else _) = _
        rw [if_neg hmem]
      rw [hgo]
      constructor
      · rw [List.map_cons, List.nodup_cons]
        refine ⟨?_, hnd⟩
        intro hx
        obtain ⟨x, hx1, hx2⟩ := List.mem_map.mp hx
        exact hfresh x hx1 (by simp [hx2])
      · intro x hx
        rcases List.mem_cons.mp hx with rfl | hx
        · exact hmem
        · exact fun hc => hfresh x hx (by simp [hc])

theorem dedupByUrl_links_nodup (l : List SearchResult) :
    ((dedupByUrl l).map (·.link)).Nodup :=
  (dedupByUrlGo_links l []).1

/-- Deduplicating a list whose links are already pairwise distinct changes
nothing. -/
theorem dedupByUrlGo_of_nodup (l : List SearchResult) : ∀ seen,
    ((l.map (·.link)).Nodup) → (∀ x ∈ l, x.link ∉ seen) →
    dedupByUrlGo seen l = l := by
  induction l with
  | nil => intro seen _ _; simp [dedupByUrlGo]
  | cons item rest ih =>
    intro seen hnd hfresh
    rw [List.map_cons, List.nodup_cons] at hnd
    have hmem : item.link ∉ seen := hfresh item (by simp)
    have hgo : dedupByUrlGo seen (item :: rest)
        = item :: dedupByUrlGo (item.link :: seen) rest := by
      show (if item.link ∈ seen then _ else _) = _
      rw [if_neg hmem]
    rw [hgo, ih (item.link :: seen) hnd.2]
    intro x hx
    rw [List.mem_cons]
    push_neg
    constructor
    · intro he
      exact hnd.1 (he ▸ List.mem_map_of_mem (·.link) hx)
    · exact hfresh x (by simp [hx])

theorem dedupByUrl_of_nodup (l : List SearchResult)
    (h : (l.map (·.link)).Nodup) : dedupByUrl l = l :=
  dedupByUrlGo_of_nodup l [] h (by simp)

/-- A bare item carrying only a URL, as in the scenario batches of the
specification. -/
def itemWithUrl (u : String) : SearchResult :=
  { title := "", link := u, snippet := "", displayLink := ""
    formattedUrl := "", htmlTitle := "", htmlSnippet := "" }

/-- A batch holding the given items (remaining response fields are
incidental to aggregation). -/
def batchOf (items : List SearchResult) : SearchResponse :=
  { items := items
    searchInformation := some { searchTime := 0, totalResults := "0",
                                formattedTotalResults := "0" }
    totalResults := items.length
    hasNextPage := false
    nextPageStartIndex := none }

/-- C1.  For every non-empty sequence of search-result batches,
`aggregateResults` returns the flattening of all items in batch order,
deduplicated by URL keeping the first occurrence, truncated to the
configured `maxSearchResults`; consequently no two output items share a URL,
the output has at most `maxSearchResults` items, and the two concrete
batches of the scenario aggregate to exactly the items with links
`a`, `b`, `c` in that order. -/
theorem aggregate_flatten_dedup_truncate (cfg : OrchestrationConfig)
    (searchResponses : List SearchResponse) (_hne : searchResponses ≠ []) :
    (aggregateResults cfg searchResponses).items
        = (keepFirstByUrl (searchResponses.flatMap (·.items))).take
            cfg.maxSearchResults
      ∧ (((aggregateResults cfg searchResponses).items.map (·.link)).Nodup)
      ∧ (aggregateResults cfg searchResponses).items.length
          ≤ cfg.maxSearchResults
      ∧ (aggregateResults defaultConfig
          [batchOf [itemWithUrl "a", itemWithUrl "b"],
           batchOf [itemWithUrl "b", itemWithUrl "c"]]).items
          = [itemWithUrl "a", itemWithUrl "b", itemWithUrl "c"] := by
  refine ⟨?_, ?_, ?_, ?_⟩
  · show (dedupByUrl (searchResponses.flatMap (·.items))).take
        cfg.maxSearchResults = _
    rw [dedupByUrl_eq_keepFirstByUrl]
  · exact List.Nodup.sublist
      (List.Sublist.map _ (List.take_sublist _ _))
      (dedupByUrl_links_nodup _)
  · show ((dedupByUrl (searchResponses.flatMap (·.items))).take
        cfg.maxSearchResults).length ≤ cfg.maxSearchResults
    simp [List.length_take]
  · decide

/-- Witness for C1: the theorem applied to the scenario input
`[a, b]`, `[b, c]` under the default configuration. -/
theorem aggregate_flatten_dedup_truncate_witness :
    ([batchOf [itemWithUrl "a", itemWithUrl "b"],
      batchOf [itemWithUrl "b", itemWithUrl "c"]] : List SearchResponse) ≠ []
    ∧ ((aggregateResults defaultConfig
          [batchOf [itemWithUrl "a", itemWithUrl "b"],
           batchOf [itemWithUrl "b", itemWithUrl "c"]]).items
        = (keepFirstByUrl (([batchOf [itemWithUrl "a", itemWithUrl "b"],
             batchOf [itemWithUrl "b", itemWithUrl "c"]] :
               List SearchResponse).flatMap (·.items))).take
            defaultConfig.maxSearchResults
      ∧ (((aggregateResults defaultConfig
            [batchOf [itemWithUrl "a", itemWithUrl "b"],
             batchOf [itemWithUrl "b", itemWithUrl "c"]]).items.map
              (·.link)).Nodup)
      ∧ (aggregateResults defaultConfig
          [batchOf [itemWithUrl "a", itemWithUrl "b"],
           batchOf [itemWithUrl "b", itemWithUrl "c"]]).items.length
          ≤ defaultConfig.maxSearchResults
      ∧ (aggregateResults defaultConfig
          [batchOf [itemWithUrl "a", itemWithUrl "b"],
           batchOf [itemWithUrl "b", itemWithUrl "c"]]).items
          = [itemWithUrl "a", itemWithUrl "b", itemWithUrl "c"]) :=
  ⟨by decide,
   aggregate_flatten_dedup_truncate defaultConfig _ (by decide)⟩

/-- C2.  Aggregation is idempotent on item sequences: re-aggregating the
single-batch sequence holding an aggregated response yields the same item
sequence. -/
theorem aggregate_idempotent (cfg : OrchestrationConfig)
    (batches : List SearchResponse) :
    (aggregateResults cfg [aggregateResults cfg batches]).items
      = (aggregateResults cfg batches).items := by
  have hitems : (aggregateResults cfg batches).items
      = (dedupByUrl (batches.flatMap (·.items))).take cfg.maxSearchResults :=
    rfl
  have hnodup : (((aggregateResults cfg batches).items.map (·.link)).Nodup) :=
    List.Nodup.sublist (List.Sublist.map _ (by rw [hitems]; exact List.take_sublist _ _))
      (dedupByUrl_links_nodup _)
  have hlen : (aggregateResults cfg batches).items.length
      ≤ cfg.maxSearchResults := by
    rw [hitems]; simp [List.length_take]
  show (dedupByUrl (([aggregateResults cfg batches] :
      List SearchResponse).flatMap (·.items))).take cfg.maxSearchResults
      = (aggregateResults cfg batches).items
  rw [show ([aggregateResults cfg batches] :
      List SearchResponse).flatMap (·.items)
      = (aggregateResults cfg batches).items by simp]
  rw [dedupByUrl_of_nodup _ hnodup, List.take_of_length_le hlen]

/-- C10.  Applied to the empty batch list, `aggregateResults` returns
normally (the JS object spread of `undefined` is a no-op, so no exception is
raised) and the resulting response has an empty item list, `totalResults`
zero and `hasNextPage` false. -/
theorem aggregate_empty_input (cfg : OrchestrationConfig) :
    aggregateResults cfg []
      = { items := [], searchInformation := none, totalResults := 0,
          hasNextPage := false, nextPageStartIndex := none } := by
  simp [aggregateResults, dedupByUrl, dedupByUrlGo]

/-! ## `SearchOrchestrator.parseGeneratedQueries` -/

/-- The line list of the parser: `generatedText.split('\n')` filtered to the
lines whose trimmed form is non-empty (string truthiness of `line.trim()`).
Lines are kept untrimmed, exactly as in the source. -/
def jsLines (generatedText : String) : List String :=
  (jsSplitChar '\n' generatedText).filter (fun line => jsTrim line ≠ "")

/-- The regex match of `/^\d+\.\s*(.+)$/` on one line.  On success, the
value of the capture group is returned with its leading `\s*` whitespace
already consumed; since the caller immediately trims the capture, consuming
a maximal whitespace run is observationally equal to the backtracking
behaviour of the JS engine.  `(.+)$` forces the remainder to be non-empty
and free of line terminators. -/
def parseNumberedLine (line : String) : Option String :=
  let cs := line.toList
  let ds := cs.takeWhile Char.isDigit
  let rest := cs.dropWhile Char.isDigit
  if ds = [] then none
  else
    match rest with
    | '.' :: rest2 =>
      let r1 := rest2.dropWhile jsSpace
      if r1 ≠ [] ∧ r1.all jsDotMatch then some (String.mk r1) else none
    | _ => none

/-- The quote stripping `query.replace(/^["']|["']$/g, '')`: one leading and
one trailing quote character are removed when present. -/
def stripQuoteEnds (s : String) : String :=
  let dropLead : List Char → List Char := fun l =>
    match l with
    | c :: rest => if c = '"' ∨ c = '\'' then rest else l
    | [] => []
  String.mk ((dropLead (dropLead s.toList).reverse).reverse)

/-- The first parsing stage: queries extracted from numbered-list lines,
trimmed, quote-stripped, and kept only when non-empty and different from
the original query. -/
def numberedQueries (generatedText originalQuery : String) : List String :=
  (jsLines generatedText).filterMap (fun line =>
    match parseNumberedLine line with
    | some cap =>
      let query := stripQuoteEnds (jsTrim cap)
      if query ≠ "" ∧ query ≠ originalQuery then some query else none
    | none => none)

/-- The meta-commentary test of the fallback stage. -/
def isMetaLine (line : String) : Bool :=
  jsIncludes (jsToLower line) "here are" ||
  jsIncludes (jsToLower line) "search queries" ||
  jsIncludes (jsToLower line) "cannot generate"

/-- The fallback filter: lines of more than five characters that are not
meta-commentary and differ from the original query (`line.length > 5` in
the source). -/
def meaningfulLines (generatedText originalQuery : String) : List String :=
  (jsLines generatedText).filter (fun line =>
    decide (5 < line.length) && !isMetaLine line &&
    decide (line ≠ originalQuery))

/-- `SearchOrchestrator.parseGeneratedQueries` (orchestrator source, lines
808-843): numbered-list extraction, fallback to meaningful lines when that
produced nothing, fallback to the original query when still empty, and
truncation to `maxGeneratedQueries`. -/
def parseGeneratedQueries (cfg : OrchestrationConfig)
    (generatedText originalQuery : String) : List String :=
  let queries := numberedQueries generatedText originalQuery
  let queries2 :=
    if queries = [] then
      queries ++ (meaningfulLines generatedText originalQuery).take
        cfg.maxGeneratedQueries
    else queries
  let queries3 := if queries2 = [] then [originalQuery] else queries2
  queries3.take cfg.maxGeneratedQueries

/-- C6.  For every generated text and original query, the parser returns at
least one and at most `maxGeneratedQueries` queries (precondition
`maxGeneratedQueries ≥ 1`), and returns the original query as the single
element when neither extraction stage produced anything. -/
theorem parseGeneratedQueries_bounds (cfg : OrchestrationConfig)
    (generatedText originalQuery : String)
    (hmax : 1 ≤ cfg.maxGeneratedQueries) :
    1 ≤ (parseGeneratedQueries cfg generatedText originalQuery).length
      ∧ (parseGeneratedQueries cfg generatedText originalQuery).length
          ≤ cfg.maxGeneratedQueries
      ∧ (numberedQueries generatedText originalQuery = [] →
          meaningfulLines generatedText originalQuery = [] →
          parseGeneratedQueries cfg generatedText originalQuery
            = [originalQuery]) := by
  by_cases h1 : numberedQueries generatedText originalQuery = []
  · by_cases h2 : (meaningfulLines generatedText originalQuery).take
        cfg.maxGeneratedQueries = []
    · have hres : parseGeneratedQueries cfg generatedText originalQuery
          = [originalQuery] := by
        simp only [parseGeneratedQueries]
        rw [if_pos h1, h1, List.nil_append, if_pos h2,
          List.take_of_length_le (by simpa using hmax)]
      rw [hres]
      exact ⟨by simp, by simpa using hmax, fun _ _ => rfl⟩
    · have hres : parseGeneratedQueries cfg generatedText originalQuery
          = (meaningfulLines generatedText originalQuery).take
              cfg.maxGeneratedQueries := by
        simp only [parseGeneratedQueries]
        rw [if_pos h1, h1, List.nil_append, if_neg h2, List.take_take,
          Nat.min_self]
      rw [hres]
      refine ⟨?_, ?_, ?_⟩
      · have := List.length_pos.mpr h2
        rw [List.length_take] at this ⊢
        omega
      · rw [List.length_take]; omega
      · intro _ hm
        exact absurd (by rw [hm, List.take_nil]) h2
  · have hres : parseGeneratedQueries cfg generatedText originalQuery
        = (numberedQueries generatedText originalQuery).take
            cfg.maxGeneratedQueries := by
      simp only [parseGeneratedQueries]
      rw [if_neg h1, if_neg h1]
    rw [hres]
    refine ⟨?_, ?_, ?_⟩
    · have := List.length_pos.mpr h1
      rw [List.length_take]
      omega
    · rw [List.length_take]; omega
    · intro h _
      exact absurd h h1

/-- Witness for C6: the parser applied to an empty model reply under the
default configuration returns exactly the original query. -/
theorem parseGeneratedQueries_bounds_witness :
    1 ≤ defaultConfig.maxGeneratedQueries
      ∧ (1 ≤ (parseGeneratedQueries defaultConfig "" "how do tides work").length
      ∧ (parseGeneratedQueries defaultConfig "" "how do tides work").length
          ≤ defaultConfig.maxGeneratedQueries
      ∧ (numberedQueries "" "how do tides work" = [] →
          meaningfulLines "" "how do tides work" = [] →
          parseGeneratedQueries defaultConfig "" "how do tides work"
            = ["how do tides work"])) :=
  ⟨by decide,
   parseGeneratedQueries_bounds defaultConfig "" "how do tides work"
     (by decide)⟩

/-- Counterexample for C9: a five-character line (`line.length > 5` fails)
is rejected by the fallback even though it is not meta-commentary and
differs from the original query, so the parser falls through to returning
the original query; the claim asserted that lines of at least five
characters are accepted. -/
theorem fallback_rejects_five_char_line :
    parseGeneratedQueries defaultConfig "abcde" "orig query" = ["orig query"]
      ∧ "abcde" ∉ parseGeneratedQueries defaultConfig "abcde" "orig query"
      ∧ ("abcde" : String).length = 5
      ∧ isMetaLine "abcde" = false
      ∧ jsTrim "abcde" ≠ ""
      ∧ "abcde" ≠ "orig query"
      ∧ numberedQueries "abcde" "orig query" = [] := by
  decide

/-- C9 amended.  When zero lines match the numbered-list pattern, every
line of MORE than five characters (at least six) that is not
meta-commentary and is not the original query is accepted by the fallback
filter, and the parser output is exactly the truncated fallback list. -/
theorem fallback_accepts_longer_lines (cfg : OrchestrationConfig)
    (generatedText originalQuery line : String)
    (hnum : numberedQueries generatedText originalQuery = [])
    (hmem : line ∈ jsLines generatedText)
    (hlen : 5 < line.length)
    (hmeta : isMetaLine line = false)
    (hne : line ≠ originalQuery) :
    line ∈ meaningfulLines generatedText originalQuery
      ∧ parseGeneratedQueries cfg generatedText originalQuery
          = (meaningfulLines generatedText originalQuery).take
              cfg.maxGeneratedQueries := by
  have hmemf : line ∈ meaningfulLines generatedText originalQuery := by
    rw [meaningfulLines, List.mem_filter]
    exact ⟨hmem, by simp [hlen, hmeta, hne]⟩
  refine ⟨hmemf, ?_⟩
  by_cases hzero : cfg.maxGeneratedQueries = 0
  · simp only [parseGeneratedQueries, hzero, List.take_zero]
  · have hml : meaningfulLines generatedText originalQuery ≠ [] := by
      intro h0
      rw [h0] at hmemf
      exact (List.not_mem_nil line) hmemf
    have htk : (meaningfulLines generatedText originalQuery).take
        cfg.maxGeneratedQueries ≠ [] := by
      intro h0
      have hlens := congrArg List.length h0
      rw [List.length_take] at hlens
      have hpos : 0 < (meaningfulLines generatedText originalQuery).length :=
        List.length_pos.mpr hml
      have hmpos : 0 < cfg.maxGeneratedQueries := Nat.pos_of_ne_zero hzero
      simp only [List.length_nil] at hlens
      omega
    simp only [parseGeneratedQueries, hnum, eq_self_iff_true, if_true,
      List.nil_append, if_neg htk, List.take_take, Nat.min_self]

/-- Witness for the amended C9: a six-character line is accepted by the
fallback and returned. -/
theorem fallback_accepts_longer_lines_witness :
    (numberedQueries "abcdef" "orig query" = []
      ∧ "abcdef" ∈ jsLines "abcdef"
      ∧ 5 < ("abcdef" : String).length
      ∧ isMetaLine "abcdef" = false
      ∧ "abcdef" ≠ "orig query")
    ∧ ("abcdef" ∈ meaningfulLines "abcdef" "orig query"
      ∧ parseGeneratedQueries defaultConfig "abcdef" "orig query"
          = (meaningfulLines "abcdef" "orig query").take
              defaultConfig.maxGeneratedQueries) :=
  ⟨by decide,
   fallback_accepts_longer_lines defaultConfig "abcdef" "orig query" "abcdef"
     (by decide) (by decide) (by decide) (by decide) (by decide)⟩

/-! ## JavaScript numbers and JSON values -/

/-- A JS number as it appears in the analyzer validation: either `NaN` or a
real (rational) value.  JSON literals parse to rationals; `NaN` arises only
through coercions. -/
inductive JsNum where
  | nan : JsNum
  | num : ℚ → JsNum
deriving DecidableEq, Repr

/-- The value space of `JSON.parse`. -/
inductive JValue where
  | null : JValue
  | bool : Bool → JValue
  | num : ℚ → JValue
  | str : String → JValue
  | arr : List JValue → JValue
  | obj : List (String × JValue) → JValue

/-- JS truthiness of a parsed JSON value (`undefined` is handled by the
`Option` layer at the call sites). -/
def jsTruthy : JValue → Bool
  | .null => false
  | .bool b => b
  | .num q => decide (q ≠ 0)
  | .str s => decide (s ≠ "")
  | .arr _ => true
  | .obj _ => true

/-- Decimal digits of a character run, most significant first. -/
def takeDigits : List Char → List ℕ × List Char
  | [] => ([], [])
  | c :: rest =>
    if c.isDigit then
      let (ds, r) := takeDigits rest
      ((c.toNat - 48) :: ds, r)
    else ([], c :: rest)

/-- Value of a digit run. -/
def digitsVal (ds : List ℕ) : ℕ := ds.foldl (fun a d => 10 * a + d) 0

/-- Parse a non-empty trimmed numeric literal as JS `ToNumber` does for
decimal forms: optional sign, integer digits, optional fraction, optional
exponent.  (The hexadecimal and `Infinity` forms are omitted; no theorem
below depends on them.)  `none` means the string does not parse, which JS
reports as `NaN`. -/
def strToNumCore (cs : List Char) : Option ℚ :=
  let signed : ℚ × List Char :=
    match cs with
    | '-' :: r => (-1, r)
    | '+' :: r => (1, r)
    | _ => (1, cs)
  let sgn := signed.1
  let (ids, cs2) := takeDigits signed.2
  let fracSplit : List ℕ × List Char :=
    match cs2 with
    | '.' :: r => takeDigits r
    | _ => ([], cs2)
  let fds := fracSplit.1
  let cs3 := fracSplit.2
  if ids = [] ∧ fds = [] then none
  else
    let mant : ℚ := (digitsVal ids : ℚ) + (digitsVal fds : ℚ) / ((10 : ℚ) ^ fds.length)
    match cs3 with
    | [] => some (sgn * mant)
    | e :: r =>
      if e = 'e' ∨ e = 'E' then
        let esigned : ℤ × List Char :=
          match r with
          | '-' :: r2 => (-1, r2)
          | '+' :: r2 => (1, r2)
          | _ => (1, r)
        let (eds, r2) := takeDigits esigned.2
        if eds = [] ∨ r2 ≠ [] then none
        else some (sgn * mant * (10 : ℚ) ^ (esigned.1 * (digitsVal eds : ℤ)))
      else none

/-- JS `ToNumber` on strings: trim, empty means `0`, otherwise parse the
numeric literal, with `NaN` on failure. -/
def strToNum (s : String) : JsNum :=
  let t := ((s.toList.dropWhile jsSpace).reverse.dropWhile jsSpace).reverse
  if t = [] then .num 0
  else
    match strToNumCore t with
    | some q => .num q
    | none => .nan

/-- JS `ToNumber` of the single element of a one-element array: the array
converts through its joined string, so `null` joins to the empty string
(`0`), booleans join to non-numeric words (`NaN`), nested one-element
arrays flatten recursively, and plain objects stringify to a non-numeric
form (`NaN`). -/
def arrElemNum : JValue → JsNum
  | .null => .num 0
  | .bool _ => .nan
  | .num q => .num q
  | .str s => strToNum s
  | .obj _ => .nan
  | .arr [] => .num 0
  | .arr [v] => arrElemNum v
  | .arr (_ :: _ :: _) => .nan

/-- JS `ToNumber` of a parsed JSON value, as invoked implicitly by
`Math.min`/`Math.max`.  A multi-element array joins with commas and is
therefore never numeric. -/
def toNumber : JValue → JsNum
  | .null => .num 0
  | .bool b => .num (if b then 1 else 0)
  | .num q => .num q
  | .str s => strToNum s
  | .obj _ => .nan
  | .arr [] => .num 0
  | .arr [v] => arrElemNum v
  | .arr (_ :: _ :: _) => .nan

/-- JS `Math.min(100, x)` with `NaN` propagation. -/
def jsMin100 : JsNum → JsNum
  | .nan => .nan
  | .num q => .num (min 100 q)

/-- JS `Math.max(0, x)` with `NaN` propagation. -/
def jsMax0 : JsNum → JsNum
  | .nan => .nan
  | .num q => .num (max 0 q)

/-- Property lookup on a parsed JSON object; later duplicate keys win, as
in `JSON.parse`.  `none` models `undefined`. -/
def jGet (kvs : List (String × JValue)) (k : String) : Option JValue :=
  ((kvs.reverse).find? (fun p => decide (p.1 = k))).map (·.2)

/-- The expression `kvs.field || 0` of the validator: an absent or falsy
field is replaced by the number zero. -/
def fieldOrZero (kvs : List (String × JValue)) (k : String) : JValue :=
  match jGet kvs k with
  | some v => if jsTruthy v then v else .num 0
  | none => .num 0

/-- The numeric validation `Math.max(0, Math.min(100, kvs.field || 0))`. -/
def clampField (kvs : List (String × JValue)) (k : String) : JsNum :=
  jsMax0 (jsMin100 (toNumber (fieldOrZero kvs k)))

/-- The array validation `Array.isArray(kvs.field) ? kvs.field : []`. -/
def arrField (kvs : List (String × JValue)) (k : String) : List JValue :=
  match jGet kvs k with
  | some (.arr l) => l
  | _ => []

/-- The optional-chained array validation
`Array.isArray(kvs.gapCategories?.sub) ? kvs.gapCategories.sub : []`:
property access on a missing or non-object `gapCategories` yields
`undefined`, which is not an array. -/
def gapCatField (kvs : List (String × JValue)) (k : String) : List JValue :=
  match jGet kvs "gapCategories" with
  | some (.obj inner) =>
    match jGet inner k with
    | some (.arr l) => l
    | _ => []
  | _ => []

/-- The boolean validation `Boolean(kvs.needsMoreSearch)`. -/
def jsBoolOf : Option JValue → Bool
  | none => false
  | some v => jsTruthy v

/-- Integer-faithful JS `ToString` on numbers (non-integral rationals are
given a marker form; the source never stringifies a non-integral number on
a path any theorem below depends on). -/
def numToString (q : ℚ) : String :=
  if q.den = 1 then toString q.num else toString q.num ++ "/" ++ toString q.den

/-- JS `String(v)` on a parsed JSON value.  Array elements join with
commas, `null` joining as the empty string. -/
def jsToString : JValue → String
  | .null => "null"
  | .bool b => if b then "true" else "false"
  | .num q => numToString q
  | .str s => s
  | .arr l => String.intercalate "," (arrStrings l)
  | .obj _ => "[object Object]"
where
  arrStrings : List JValue → List String
    | [] => []
    | .null :: rest => "" :: arrStrings rest
    | .bool b :: rest => (if b then "true" else "false") :: arrStrings rest
    | .num q :: rest => numToString q :: arrStrings rest
    | .str s :: rest => s :: arrStrings rest
    | .arr l :: rest => String.intercalate "," (arrStrings l) :: arrStrings rest
    | .obj _ :: rest => "[object Object]" :: arrStrings rest

/-- The string validation `String(kvs.reasoning || defaultText)`. -/
def strFieldOr (kvs : List (String × JValue)) (k defaultText : String) : String :=
  match jGet kvs k with
  | some v => if jsTruthy v then jsToString v else defaultText
  | none => defaultText

/-! ## `ResultAnalysis` and `SearchOrchestrator.parseAnalysisResponse` -/

/-- The `gapCategories` record of a `ResultAnalysis`.  Element lists carry
raw JSON values: the source casts the parsed arrays without inspecting
their elements, so non-string entries survive validation. -/
structure GapCategories where
  factual : List JValue
  contextual : List JValue
  verification : List JValue
  depth : List JValue

/-- The validated analysis object (`ResultAnalysis` in the types module).
`completeness` and `confidenceLevel` are JS numbers and may be `NaN`. -/
structure ResultAnalysis where
  completeness : JsNum
  informationGaps : List JValue
  gapCategories : GapCategories
  followupTopics : List JValue
  confidenceLevel : JsNum
  needsMoreSearch : Bool
  reasoning : String

/-- A convenience constructor for analyses whose sequence fields are plain
strings (the shape the code itself builds in its canned and fallback
analyses). -/
def strAnalysis (completeness : ℚ) (gaps : List String)
    (factual contextual verification depth : List String)
    (topics : List String) (confidence : ℚ) (needsMore : Bool)
    (reasoning : String) : ResultAnalysis :=
  { completeness := .num completeness
    informationGaps := gaps.map JValue.str
    gapCategories :=
      { factual := factual.map JValue.str
        contextual := contextual.map JValue.str
        verification := verification.map JValue.str
        depth := depth.map JValue.str }
    followupTopics := topics.map JValue.str
    confidenceLevel := .num confidence
    needsMoreSearch := needsMore
    reasoning := reasoning }

/-- `SearchOrchestrator.parseAnalysisResponse` (orchestrator source, lines
1037-1083).  The argument models the combined result of matching
`/\{[\s\S]*\}/` against the model reply and running `JSON.parse` on the
match: `none` when no block was found or parsing threw (the `catch`
branch), `some kvs` when parsing produced an object — a successful parse of
a text that starts with an opening brace and ends with a closing brace is
necessarily a JSON object.  On success every field is validated
individually. -/
def parseAnalysisResponse (parsed : Option (List (String × JValue)))
    (ctxQuery : String) : ResultAnalysis :=
  match parsed with
  | some kvs =>
    { completeness := clampField kvs "completeness"
      informationGaps := arrField kvs "informationGaps"
      gapCategories :=
        { factual := gapCatField kvs "factual"
          contextual := gapCatField kvs "contextual"
          verification := gapCatField kvs "verification"
          depth := gapCatField kvs "depth" }
      followupTopics := arrField kvs "followupTopics"
      confidenceLevel := clampField kvs "confidenceLevel"
      needsMoreSearch := jsBoolOf (jGet kvs "needsMoreSearch")
      reasoning := strFieldOr kvs "reasoning" "Analysis completed" }
  | none =>
    strAnalysis 50 ["Unable to properly analyze search results"]
      ["Analysis parsing failed - may need more factual information"]
      ["Unable to assess contextual completeness"] []
      ["Cannot determine information depth"]
      [ctxQuery ++ " additional information"] 30 true
      "Analysis parsing failed, recommending additional search as precaution"

/-! ## `CustomSearchClient` content extraction -/

/-- Drop characters up to and including the next closing angle bracket. -/
def cutGt : List Char → Option (List Char)
  | [] => none
  | c :: r => if c = '>' then some r else cutGt r

theorem cutGt_length : ∀ (l r : List Char), cutGt l = some r →
    r.length < l.length := by
  intro l
  induction l with
  | nil => intro r h; simp [cutGt] at h
  | cons c rest ih =>
    intro r h
    rw [cutGt] at h
    by_cases hc : c = '>'
    · rw [if_pos hc] at h
      cases h
      simp
    · rw [if_neg hc] at h
      exact Nat.lt_trans (ih r h) (by simp)

/-- The tag removal `replace(/<[^>]*>/g, '')`: a `<` with a later `>`
removes everything through that `>`; a `<` with no closing `>` never
matches and survives. -/
def stripTags : List Char → List Char
  | [] => []
  | c :: rest =>
    if c = '<' then
      match h : cutGt rest with
      | some after => stripTags after
      | none => c :: rest
    else c :: stripTags rest
termination_by l => l.length
decreasing_by
  · simp only [List.length_cons]
    exact Nat.lt_succ_of_lt (cutGt_length rest after h)
  · simp

/-- The whitespace normalisation `replace(/\s+/g, ' ')`, tracked with a
previous-was-whitespace flag. -/
def collapseWsGo : Bool → List Char → List Char
  | _, [] => []
  | prev, c :: rest =>
    if jsSpace c then
      if prev then collapseWsGo true rest else ' ' :: collapseWsGo true rest
    else c :: collapseWsGo false rest

/-- `CustomSearchClient.cleanHtml`: strip tags, decode the six supported
HTML entities in source order, collapse whitespace runs, trim. -/
def cleanHtml (htmlString : String) : String :=
  let noTags := String.mk (stripTags htmlString.toList)
  let decoded :=
    (((((noTags.replace "&lt;" "<").replace "&gt;" ">").replace
      "&amp;" "&").replace "&quot;" "\"").replace "&#39;" "\x27").replace
      "&nbsp;" " "
  jsTrim (String.mk (collapseWsGo false decoded.toList))

/-- `CustomSearchClient.extractContentForSynthesis`: one formatted string
per result item, preferring the HTML variants when non-empty (JS `||` on
strings). -/
def extractContentForSynthesis (searchResponse : SearchResponse) :
    List String :=
  searchResponse.items.map (fun item =>
    let cleanTitle :=
      cleanHtml (if item.htmlTitle ≠ "" then item.htmlTitle else item.title)
    let cleanSnippet :=
      cleanHtml (if item.htmlSnippet ≠ "" then item.htmlSnippet
        else item.snippet)
    "Title: " ++ cleanTitle ++ "\nURL: " ++ item.link ++ "\nContent: "
      ++ cleanSnippet)

/-! ## `SearchOrchestrator.analyzeSearchResults` -/

/-- The canned analysis of the empty-batch short-circuit. -/
def emptyBatchAnalysis : ResultAnalysis :=
  strAnalysis 0 ["No search results available"]
    ["No factual information found"]
    ["No contextual information available"] []
    ["No detailed information available"] [] 0 true
    "No search results were available for analysis"

/-- The canned analysis of the no-content short-circuit. -/
def noContentAnalysis : ResultAnalysis :=
  strAnalysis 10 ["No meaningful content extracted from search results"]
    ["Limited factual data available"]
    ["Insufficient context provided"] []
    ["Surface-level information only"] [] 20 true
    "Search results contained no meaningful extractable content"

/-- `SearchOrchestrator.analyzeSearchResults` (orchestrator source, lines
862-970), modelled at the level of its returned analysis.  The `svc`
argument is the generation-service oracle: `none` models a failed
generation call or a reply without text (both produce an error result,
returned here as `none`); `some parsed` models a textual reply whose
JSON-block extraction and parse outcome is `parsed`, handed to
`parseAnalysisResponse`.  The two short-circuits return their canned
analyses without consulting the service. -/
def analyzeSearchResults (ctxQuery : String)
    (searchResults : List SearchResponse)
    (svc : Option (Option (List (String × JValue)))) :
    Option ResultAnalysis :=
  if searchResults = [] then some emptyBatchAnalysis
  else if searchResults.flatMap extractContentForSynthesis = [] then
    some noContentAnalysis
  else
    match svc with
    | none => none
    | some parsed => some (parseAnalysisResponse parsed ctxQuery)

/-- Decidable range test used by the claims about numeric clamping. -/
def jsNumInRange (x : JsNum) : Bool :=
  match x with
  | .nan => false
  | .num q => decide (0 ≤ q ∧ q ≤ 100)

/-- Whether an optional JSON value is an array (`Array.isArray`). -/
def isArrV : Option JValue → Bool
  | some (.arr _) => true
  | _ => false

/-- Whether an optional JSON value is an object. -/
def isObjV : Option JValue → Bool
  | some (.obj _) => true
  | _ => false

theorem clampField_range_or_nan (kvs : List (String × JValue)) (k : String) :
    jsNumInRange (clampField kvs k) = true ∨ clampField kvs k = .nan := by
  unfold clampField
  cases htn : toNumber (fieldOrZero kvs k) with
  | nan => right; rfl
  | num q =>
    left
    simp only [jsMin100, jsMax0, jsNumInRange, decide_eq_true_eq]
    constructor
    · exact le_max_left 0 _
    · exact max_le (by norm_num) (min_le_left 100 q)

theorem arrField_eq_nil (kvs : List (String × JValue)) (k : String)
    (h : isArrV (jGet kvs k) = false) : arrField kvs k = [] := by
  unfold arrField
  unfold isArrV at h
  cases hg : jGet kvs k with
  | none => rfl
  | some v =>
    cases v with
    | arr l => rw [hg] at h; exact absurd h (by simp)
    | null => rfl
    | bool b => rfl
    | num q => rfl
    | str s => rfl
    | obj o => rfl

theorem gapCatField_eq_nil (kvs : List (String × JValue)) (k : String)
    (h : isObjV (jGet kvs "gapCategories") = false) : gapCatField kvs k = [] := by
  unfold gapCatField
  unfold isObjV at h
  cases hg : jGet kvs "gapCategories" with
  | none => rfl
  | some v =>
    cases v with
    | obj o => rw [hg] at h; exact absurd h (by simp)
    | null => rfl
    | bool b => rfl
    | num q => rfl
    | str s => rfl
    | arr l => rfl

/-- Counterexample for C5: the model reply whose JSON block is the object
with `completeness` bound to the non-numeric string `high` passes through
`analyzeSearchResults` as a success, yet the validated `completeness` is
`NaN` — JS `x || 0` keeps the truthy string, whose numeric coercion inside
`Math.min` is `NaN`, and `Math.max(0, NaN)` is `NaN` — which is not within
the range `[0, 100]` promised by the claim. -/
theorem analysis_nonnumeric_completeness_escapes_clamp :
    (analyzeSearchResults "test query" [batchOf [itemWithUrl "a"]]
        (some (some [("completeness", JValue.str "high")]))).map
          (·.completeness) = some JsNum.nan
      ∧ jsNumInRange JsNum.nan = false := by
  exact ⟨by decide, by decide⟩

/-- C5 amended.  Every analysis returned with success by
`analyzeSearchResults` — on both short-circuits, on a parsed model reply
and on the parse-failure fallback — has `completeness` and
`confidenceLevel` either within `[0, 100]` or equal to `NaN` (the `NaN`
case arises exactly for truthy payload fields that do not coerce to a
number, as the counterexample shows); and on the parsed path every
sequence field whose payload data is malformed is the empty array. -/
theorem analyzeSearchResults_validated (ctxQuery : String)
    (searchResults : List SearchResponse)
    (svc : Option (Option (List (String × JValue)))) (a : ResultAnalysis)
    (h : analyzeSearchResults ctxQuery searchResults svc = some a) :
    (jsNumInRange a.completeness = true ∨ a.completeness = JsNum.nan)
      ∧ (jsNumInRange a.confidenceLevel = true
          ∨ a.confidenceLevel = JsNum.nan)
      ∧ (∀ kvs, svc = some (some kvs) → searchResults ≠ [] →
          searchResults.flatMap extractContentForSynthesis ≠ [] →
          (isArrV (jGet kvs "informationGaps") = false →
            a.informationGaps = [])
          ∧ (isArrV (jGet kvs "followupTopics") = false →
            a.followupTopics = [])
          ∧ (isObjV (jGet kvs "gapCategories") = false →
            a.gapCategories = ⟨[], [], [], []⟩)) := by
  unfold analyzeSearchResults at h
  by_cases h1 : searchResults = []
  · rw [if_pos h1, Option.some.injEq] at h
    subst h
    exact ⟨Or.inl (by decide), Or.inl (by decide),
      fun kvs hsvc hne _ => absurd h1 hne⟩
  · rw [if_neg h1] at h
    by_cases h2 : searchResults.flatMap extractContentForSynthesis = []
    · rw [if_pos h2, Option.some.injEq] at h
      subst h
      exact ⟨Or.inl (by decide), Or.inl (by decide),
        fun kvs hsvc _ hnc => absurd h2 hnc⟩
    · rw [if_neg h2] at h
      cases svc with
      | none => exact absurd h (by simp)
      | some parsed =>
        rw [Option.some.injEq] at h
        subst h
        cases parsed with
        | none =>
          refine ⟨Or.inl (by rfl), Or.inl (by rfl), ?_⟩
          intro kvs hsvc
          rw [Option.some.injEq] at hsvc
          exact absurd hsvc (by simp)
        | some kvs0 =>
          refine ⟨?_, ?_, ?_⟩
          · exact (clampField_range_or_nan kvs0 "completeness").imp id id
          · exact (clampField_range_or_nan kvs0 "confidenceLevel").imp id id
          · intro kvs hsvc _ _
            rw [Option.some.injEq, Option.some.injEq] at hsvc
            cases hsvc
            refine ⟨?_, ?_, ?_⟩
            · intro hmal
              exact arrField_eq_nil kvs0 "informationGaps" hmal
            · intro hmal
              exact arrField_eq_nil kvs0 "followupTopics" hmal
            · intro hmal
              show GapCategories.mk _ _ _ _ = _
              rw [gapCatField_eq_nil kvs0 "factual" hmal,
                gapCatField_eq_nil kvs0 "contextual" hmal,
                gapCatField_eq_nil kvs0 "verification" hmal,
                gapCatField_eq_nil kvs0 "depth" hmal]

/-- Witness for the amended C5: the theorem applied to the empty-batch
short-circuit. -/
theorem analyzeSearchResults_validated_witness :
    analyzeSearchResults "q" [] none = some emptyBatchAnalysis
      ∧ ((jsNumInRange emptyBatchAnalysis.completeness = true
            ∨ emptyBatchAnalysis.completeness = JsNum.nan)
        ∧ (jsNumInRange emptyBatchAnalysis.confidenceLevel = true
            ∨ emptyBatchAnalysis.confidenceLevel = JsNum.nan)
        ∧ (∀ kvs, (none : Option (Option (List (String × JValue))))
              = some (some kvs) → ([] : List SearchResponse) ≠ [] →
            ([] : List SearchResponse).flatMap extractContentForSynthesis
              ≠ [] →
            (isArrV (jGet kvs "informationGaps") = false →
              emptyBatchAnalysis.informationGaps = [])
            ∧ (isArrV (jGet kvs "followupTopics") = false →
              emptyBatchAnalysis.followupTopics = [])
            ∧ (isObjV (jGet kvs "gapCategories") = false →
              emptyBatchAnalysis.gapCategories = ⟨[], [], [], []⟩))) :=
  ⟨rfl, analyzeSearchResults_validated "q" [] none emptyBatchAnalysis rfl⟩

/-! ## `SearchOrchestrator.calculateQueryPriority` -/

/-- The fixed factual-keyword table of `calculateQueryPriority`. -/
def factualKeywords : List String :=
  ["data", "statistics", "numbers", "facts", "research", "study", "evidence"]

/-- The fixed verification-keyword table. -/
def verificationKeywords : List String :=
  ["official", "verified", "confirmed", "authoritative", "source",
   "validation"]

/-- The fixed depth-keyword table. -/
def depthKeywords : List String :=
  ["detailed", "comprehensive", "complete", "thorough", "in-depth",
   "advanced"]

/-- The fixed contextual-keyword table. -/
def contextualKeywords : List String :=
  ["background", "context", "history", "explanation", "overview",
   "introduction"]

/-- `keywords.some(keyword => queryLower.includes(keyword))`. -/
def containsAnyKeyword (queryLower : String) (keywords : List String) : Bool :=
  keywords.any (fun kw => jsIncludes queryLower kw)

/-- The factual branch guard: non-empty factual gaps and a factual keyword
in the lowered query. -/
def factualHit (queryLower : String) (analysis : ResultAnalysis) : Bool :=
  decide (0 < analysis.gapCategories.factual.length) &&
    containsAnyKeyword queryLower factualKeywords

/-- The verification branch guard. -/
def verificationHit (queryLower : String) (analysis : ResultAnalysis) : Bool :=
  decide (0 < analysis.gapCategories.verification.length) &&
    containsAnyKeyword queryLower verificationKeywords

/-- The depth branch guard. -/
def depthHit (queryLower : String) (analysis : ResultAnalysis) : Bool :=
  decide (0 < analysis.gapCategories.depth.length) &&
    containsAnyKeyword queryLower depthKeywords

/-- The contextual branch guard. -/
def contextualHit (queryLower : String) (analysis : ResultAnalysis) : Bool :=
  decide (0 < analysis.gapCategories.contextual.length) &&
    containsAnyKeyword queryLower contextualKeywords

/-- One substring match of a follow-up topic against the lowered query, in
either direction.  A non-string entry would raise a `TypeError` in the
source (`topic.toLowerCase()`); no theorem below instantiates one, and the
model treats it as a non-match. -/
def topicMatch (queryLower : String) : JValue → Bool
  | .str t => jsIncludes queryLower (jsToLower t)
      || jsIncludes (jsToLower t) queryLower
  | _ => false

/-- `analysis.followupTopics.filter(...).length`. -/
def topicMatches (queryLower : String) (analysis : ResultAnalysis) : ℕ :=
  (analysis.followupTopics.filter (topicMatch queryLower)).length

/-- `analysis.informationGaps.filter(...).length` (same matching rule). -/
def gapMatches (queryLower : String) (analysis : ResultAnalysis) : ℕ :=
  (analysis.informationGaps.filter (topicMatch queryLower)).length

/-- `SearchOrchestrator.calculateQueryPriority` (orchestrator source, lines
1307-1377): the four keyword branches add 40/35/30/25 each, topic matches
add 15 apiece, gap matches 10 apiece, addressing more than one gap type
adds 20, and two quality bonuses add 5 each; the final score is clamped to
be non-negative (a no-op, as every term is non-negative). -/
def calculateQueryPriority (query : String) (analysis : ResultAnalysis) : ℤ :=
  let queryLower := jsToLower query
  let gapTypesAddressed : ℕ :=
    (if factualHit queryLower analysis then 1 else 0)
    + (if verificationHit queryLower analysis then 1 else 0)
    + (if depthHit queryLower analysis then 1 else 0)
    + (if contextualHit queryLower analysis then 1 else 0)
  let priority : ℤ :=
    (if factualHit queryLower analysis then 40 else 0)
    + (if verificationHit queryLower analysis then 35 else 0)
    + (if depthHit queryLower analysis then 30 else 0)
    + (if contextualHit queryLower analysis then 25 else 0)
    + (topicMatches queryLower analysis : ℤ) * 15
    + (gapMatches queryLower analysis : ℤ) * 10
    + (if 1 < gapTypesAddressed then 20 else 0)
    + (if 20 ≤ query.length ∧ query.length ≤ 80 then 5 else 0)
    + (if 3 ≤ (jsSplitChar ' ' queryLower).length
          ∧ (jsSplitChar ' ' queryLower).length ≤ 8 then 5 else 0)
  max 0 priority

/-! ## `SearchOrchestrator.parseAndPrioritizeFollowupQueries` -/

/-- A parsed follow-up query together with its priority score. -/
structure ScoredQuery where
  query : String
  priority : ℤ
deriving DecidableEq, Repr

/-- Stable insertion by descending priority: an element is placed before
the first strictly lower-priority element, so equal priorities keep their
parse order. -/
def insertByPriorityDesc (x : ScoredQuery) :
    List ScoredQuery → List ScoredQuery
  | [] => [x]
  | y :: ys =>
    if y.priority ≤ x.priority then x :: y :: ys
    else y :: insertByPriorityDesc x ys

/-- The stable descending sort
`queries.sort((a, b) => b.priority - a.priority)`: JS `Array.prototype.sort`
is stable and this comparator is a total preorder on the priority, so the
sorted result is the unique stable descending arrangement, computed here by
stable insertion. -/
def sortByPriorityDesc (l : List ScoredQuery) : List ScoredQuery :=
  l.foldr insertByPriorityDesc []

/-- `SearchOrchestrator.parseAndPrioritizeFollowupQueries` (orchestrator
source, lines 1255-1302): numbered-line parsing with priority scoring, a
long-meaningful-line fallback (threshold `> 10`, its own meta words, scored
on the raw line but stored trimmed), then the stable descending sort and
truncation to `maxFollowupQueries`. -/
def parseAndPrioritizeFollowupQueries (cfg : OrchestrationConfig)
    (generatedText ctxQuery : String) (analysis : ResultAnalysis) :
    List String :=
  let lines := jsLines generatedText
  let queries : List ScoredQuery := lines.filterMap (fun line =>
    match parseNumberedLine line with
    | some cap =>
      let query := stripQuoteEnds (jsTrim cap)
      if query ≠ "" ∧ query ≠ ctxQuery then
        some { query := query
               priority := calculateQueryPriority query analysis }
      else none
    | none => none)
  let queries2 :=
    if queries = [] then
      ((lines.filter (fun line =>
          decide (10 < line.length)
          && !(jsIncludes (jsToLower line) "follow-up")
          && !(jsIncludes (jsToLower line) "search queries")
          && !(jsIncludes (jsToLower line) "generated")
          && decide (line ≠ ctxQuery))).take cfg.maxFollowupQueries).map
        (fun line =>
          { query := jsTrim line
            priority := calculateQueryPriority line analysis })
    else queries
  ((sortByPriorityDesc queries2).take cfg.maxFollowupQueries).map (·.query)

/-! ## `SearchOrchestrator.generateFollowupQueries` -/

/-- `SearchOrchestrator.generateFollowupQueries` (orchestrator source,
lines 1088-1168), instrumented with the number of generation-service calls
performed.  The `svc` oracle is the value the generation call would
produce: `none` models a failed call or a reply without text (both yield an
error result), `some generatedText` a successful reply.  The result pair
holds the `ApiResponse` data (`none` for the error outcomes) and the call
count. -/
def generateFollowupQueries (cfg : OrchestrationConfig) (ctxQuery : String)
    (analysis : ResultAnalysis) (svc : Option String) :
    Option (List String) × ℕ :=
  if analysis.needsMoreSearch = false ∨ analysis.informationGaps.length = 0
  then (some [], 0)
  else
    match svc with
    | none => (none, 1)
    | some generatedText =>
      (some (parseAndPrioritizeFollowupQueries cfg generatedText ctxQuery
        analysis), 1)

/-- C7.  For every analysis with `needsMoreSearch` false, and likewise for
every analysis with an empty `informationGaps` sequence,
`generateFollowupQueries` returns a successful empty sequence and performs
no generation-service call, whatever the service would have replied. -/
theorem generateFollowupQueries_short_circuit (cfg : OrchestrationConfig)
    (ctxQuery : String) (analysis : ResultAnalysis) (svc : Option String)
    (h : analysis.needsMoreSearch = false
      ∨ analysis.informationGaps.length = 0) :
    generateFollowupQueries cfg ctxQuery analysis svc = (some [], 0) := by
  unfold generateFollowupQueries
  rw [if_pos h]

/-- Witness for C7: an analysis reporting complete coverage triggers the
short-circuit. -/
theorem generateFollowupQueries_short_circuit_witness :
    ((strAnalysis 95 [] [] [] [] [] [] 95 false
        "Comprehensive coverage achieved").needsMoreSearch = false
      ∨ (strAnalysis 95 [] [] [] [] [] [] 95 false
        "Comprehensive coverage achieved").informationGaps.length = 0)
    ∧ generateFollowupQueries defaultConfig "test query"
        (strAnalysis 95 [] [] [] [] [] [] 95 false
          "Comprehensive coverage achieved") (some "1. stray reply")
        = (some [], 0) :=
  ⟨Or.inl rfl,
   generateFollowupQueries_short_circuit defaultConfig "test query" _ _
     (Or.inl rfl)⟩

/-- The analysis of the C8 counterexample: non-empty factual AND
verification gap categories, no topics and no free-text gaps. -/
def mixedGapsAnalysis : ResultAnalysis :=
  strAnalysis 65 [] ["Temperature rise statistics"] []
    ["Contradictory claims about warming rates"] [] [] 75 true
    "Several aspects need more detail"

/-- Counterexample for C8: with non-empty factual gaps, the query `data`
contains a factual keyword and the query `official confirmed sources` does
not, yet the latter scores 45 (verification branch 35 plus two quality
bonuses) against 40 and is ranked first by
`parseAndPrioritizeFollowupQueries`; the factual-keyword query does not
always rank strictly higher. -/
theorem priority_factual_not_always_higher :
    0 < mixedGapsAnalysis.gapCategories.factual.length
      ∧ containsAnyKeyword (jsToLower "data") factualKeywords = true
      ∧ containsAnyKeyword (jsToLower "official confirmed sources")
          factualKeywords = false
      ∧ calculateQueryPriority "data" mixedGapsAnalysis = 40
      ∧ calculateQueryPriority "official confirmed sources"
          mixedGapsAnalysis = 45
      ∧ parseAndPrioritizeFollowupQueries defaultConfig
          "1. data\n2. official confirmed sources" "orig query"
          mixedGapsAnalysis
          = ["official confirmed sources", "data"] := by
  exact ⟨by decide, by decide, by decide, by decide, by decide, by decide⟩

/-- C8 amended.  With non-empty factual gaps, a query containing a factual
keyword receives the +40 factual bonus and a query without one receives
zero from the factual branch; the factual-keyword query therefore scores
strictly higher, and sorts first, whenever the other query earns nothing
from the remaining branches (no verification/depth/contextual keyword hits,
no topic or gap substring matches, and neither quality bonus) — in general
the other query can overtake through those branches, as the counterexample
shows. -/
theorem priority_factual_bonus (analysis : ResultAnalysis) (q1 q2 : String)
    (hfac : 0 < analysis.gapCategories.factual.length)
    (h1 : containsAnyKeyword (jsToLower q1) factualKeywords = true)
    (h2 : containsAnyKeyword (jsToLower q2) factualKeywords = false)
    (hv : verificationHit (jsToLower q2) analysis = false)
    (hd : depthHit (jsToLower q2) analysis = false)
    (hc : contextualHit (jsToLower q2) analysis = false)
    (ht : topicMatches (jsToLower q2) analysis = 0)
    (hg : gapMatches (jsToLower q2) analysis = 0)
    (hlb : ¬(20 ≤ q2.length ∧ q2.length ≤ 80))
    (hwb : ¬(3 ≤ (jsSplitChar ' ' (jsToLower q2)).length
        ∧ (jsSplitChar ' ' (jsToLower q2)).length ≤ 8)) :
    calculateQueryPriority q2 analysis < calculateQueryPriority q1 analysis
      ∧ sortByPriorityDesc
          [{ query := q2, priority := calculateQueryPriority q2 analysis },
           { query := q1, priority := calculateQueryPriority q1 analysis }]
        = [{ query := q1, priority := calculateQueryPriority q1 analysis },
           { query := q2, priority := calculateQueryPriority q2 analysis }] := by
  have hf1 : factualHit (jsToLower q1) analysis = true := by
    unfold factualHit
    rw [h1, decide_eq_true hfac]
    rfl
  have hf2 : factualHit (jsToLower q2) analysis = false := by
    unfold factualHit
    rw [h2, Bool.and_false]
  have hq2 : calculateQueryPriority q2 analysis = 0 := by
    simp only [calculateQueryPriority]
    rw [hf2, hv, hd, hc, ht, hg]
    rw [if_neg hlb, if_neg hwb]
    norm_num
  have hq1 : 40 ≤ calculateQueryPriority q1 analysis := by
    simp only [calculateQueryPriority]
    rw [hf1]
    simp only [eq_self_iff_true, if_true]
    have htm : (0 : ℤ) ≤ (topicMatches (jsToLower q1) analysis : ℤ) * 15 := by
      positivity
    have hgm : (0 : ℤ) ≤ (gapMatches (jsToLower q1) analysis : ℤ) * 10 := by
      positivity
    refine le_trans ?_ (le_max_right 0 _)
    split_ifs <;> omega
  have hlt : calculateQueryPriority q2 analysis
      < calculateQueryPriority q1 analysis := by omega
  refine ⟨hlt, ?_⟩
  have hnle : ¬ (calculateQueryPriority q1 analysis
      ≤ calculateQueryPriority q2 analysis) := not_le.mpr hlt
  simp [sortByPriorityDesc, insertByPriorityDesc, hnle]

/-- Witness for the amended C8: `data` against the keyword-free short query
`why`. -/
theorem priority_factual_bonus_witness :
    (0 < mixedGapsAnalysis.gapCategories.factual.length
      ∧ containsAnyKeyword (jsToLower "data") factualKeywords = true
      ∧ containsAnyKeyword (jsToLower "why") factualKeywords = false
      ∧ verificationHit (jsToLower "why") mixedGapsAnalysis = false
      ∧ depthHit (jsToLower "why") mixedGapsAnalysis = false
      ∧ contextualHit (jsToLower "why") mixedGapsAnalysis = false
      ∧ topicMatches (jsToLower "why") mixedGapsAnalysis = 0
      ∧ gapMatches (jsToLower "why") mixedGapsAnalysis = 0
      ∧ ¬(20 ≤ ("why" : String).length ∧ ("why" : String).length ≤ 80)
      ∧ ¬(3 ≤ (jsSplitChar ' ' (jsToLower "why")).length
          ∧ (jsSplitChar ' ' (jsToLower "why")).length ≤ 8))
    ∧ (calculateQueryPriority "why" mixedGapsAnalysis
          < calculateQueryPriority "data" mixedGapsAnalysis
      ∧ sortByPriorityDesc
          [{ query := "why",
             priority := calculateQueryPriority "why" mixedGapsAnalysis },
           { query := "data",
             priority := calculateQueryPriority "data" mixedGapsAnalysis }]
        = [{ query := "data",
             priority := calculateQueryPriority "data" mixedGapsAnalysis },
           { query := "why",
             priority := calculateQueryPriority "why" mixedGapsAnalysis }]) :=
  ⟨by decide,
   priority_factual_bonus mixedGapsAnalysis "data" "why" (by decide)
     (by decide) (by decide) (by decide) (by decide) (by decide) (by decide)
     (by decide) (by decide) (by decide)⟩

/-! ## The iterative loop of `SearchOrchestrator.search` -/

/-- JS `x >= t` on a possibly-`NaN` number (`NaN` compares false). -/
def jsGe (x : JsNum) (t : ℚ) : Bool :=
  match x with
  | .nan => false
  | .num q => decide (t ≤ q)

/-- The service behaviour available to one iteration of the loop:
the generation oracle of the analysis call, the generation oracle of the
follow-up query generation, and the successful batches produced by the
follow-up searches (`searchMultipleQueries` filtered to successes). -/
structure IterOracle where
  analysisSvc : Option (Option (List (String × JValue)))
  followupSvc : Option String
  searchResults : List SearchResponse

/-- One pass of the `while` body of `search` (orchestrator source, lines
171-250).  `Sum.inl st` means the body hit a `break` and the loop ends in
state `st` (current iteration, accumulated batches, follow-up search rounds
performed by this pass); `Sum.inr acc2` means the body fell through to
`currentIteration++` with merged batches `acc2`.  Note the merge happens
before the diminishing-returns check, so a diminishing-returns break keeps
the new batches; in the diminishing condition, `newResultsCount` is the raw
item total of the new batches, `previousResultsCount` the raw item total of
the accumulated batches before the merge, and `uniqueResultsAfter` the item
count of the aggregated (deduplicated and capped) merged batches. -/
def loopStep (cfg : OrchestrationConfig) (ctxQuery : String) (o : IterOracle)
    (cur : ℕ) (acc : List SearchResponse) :
    (ℕ × List SearchResponse × ℕ) ⊕ List SearchResponse :=
  match analyzeSearchResults ctxQuery acc o.analysisSvc with
  | none => .inl (cur, acc, 0)
  | some analysis =>
    if !analysis.needsMoreSearch
        || jsGe analysis.completeness cfg.completenessThreshold then
      .inl (cur, acc, 0)
    else if analysis.informationGaps.length = 0 then .inl (cur, acc, 0)
    else
      match (generateFollowupQueries cfg ctxQuery analysis o.followupSvc).1
      with
      | none => .inl (cur, acc, 0)
      | some followupQueries =>
        if followupQueries.length = 0 then .inl (cur, acc, 0)
        else if o.searchResults.length = 0 then .inl (cur, acc, 1)
        else if (o.searchResults.map (·.items.length)).sum = 0
            ∨ (aggregateResults cfg (acc ++ o.searchResults)).items.length
              ≤ (acc.map (·.items.length)).sum then
          .inl (cur, acc ++ o.searchResults, 1)
        else .inr (acc ++ o.searchResults)

/-- The `while (currentIteration < maxSearchIterations)` loop.  One oracle
is consumed per executed iteration; the theorems below hold for every
oracle list, so the list length never constrains them.  The result is the
final `currentIteration`, the accumulated batches, and the number of
follow-up search rounds performed. -/
def searchIterationLoop (cfg : OrchestrationConfig) (ctxQuery : String) :
    List IterOracle → ℕ → List SearchResponse →
    ℕ × List SearchResponse × ℕ
  | [], cur, acc => (cur, acc, 0)
  | o :: rest, cur, acc =>
    if cur < cfg.maxSearchIterations then
      match loopStep cfg ctxQuery o cur acc with
      | .inl result => result
      | .inr acc2 =>
        let res := searchIterationLoop cfg ctxQuery rest (cur + 1) acc2
        (res.1, res.2.1, res.2.2 + 1)
    else (cur, acc, 0)

/-- The guard of Step 2 of `search` (orchestrator source, line 166): the
loop runs only when iterative search is enabled and `maxSearchIterations`
exceeds one; `currentIteration` starts at 1. -/
def runIterativeSearch (cfg : OrchestrationConfig) (ctxQuery : String)
    (oracles : List IterOracle) (initialResults : List SearchResponse) :
    ℕ × List SearchResponse × ℕ :=
  if cfg.enableIterativeSearch = true ∧ 1 < cfg.maxSearchIterations then
    searchIterationLoop cfg ctxQuery oracles 1 initialResults
  else (1, initialResults, 0)

theorem loopStep_inl (cfg : OrchestrationConfig) (ctxQuery : String)
    (o : IterOracle) (cur : ℕ) (acc : List SearchResponse)
    (result : ℕ × List SearchResponse × ℕ)
    (h : loopStep cfg ctxQuery o cur acc = .inl result) :
    result.1 = cur ∧ result.2.2 ≤ 1 := by
  unfold loopStep at h
  repeat' split at h
  all_goals first
    | (injection h with h2; exact h2 ▸ ⟨rfl, by simp⟩)
    | exact (Sum.noConfusion h)

theorem searchIterationLoop_cons (cfg : OrchestrationConfig)
    (ctxQuery : String) (o : IterOracle) (rest : List IterOracle) (cur : ℕ)
    (acc : List SearchResponse) :
    searchIterationLoop cfg ctxQuery (o :: rest) cur acc
      = if cur < cfg.maxSearchIterations then
          match loopStep cfg ctxQuery o cur acc with
          | .inl result => result
          | .inr acc2 =>
            ((searchIterationLoop cfg ctxQuery rest (cur + 1) acc2).1,
             (searchIterationLoop cfg ctxQuery rest (cur + 1) acc2).2.1,
             (searchIterationLoop cfg ctxQuery rest (cur + 1) acc2).2.2 + 1)
        else (cur, acc, 0) := rfl

theorem searchIterationLoop_bounds (cfg : OrchestrationConfig)
    (ctxQuery : String) : ∀ (oracles : List IterOracle) (cur : ℕ)
    (acc : List SearchResponse), cur ≤ cfg.maxSearchIterations →
    (searchIterationLoop cfg ctxQuery oracles cur acc).1
        ≤ cfg.maxSearchIterations
      ∧ (searchIterationLoop cfg ctxQuery oracles cur acc).2.2
        ≤ cfg.maxSearchIterations - cur := by
  intro oracles
  induction oracles with
  | nil =>
    intro cur acc hcur
    exact ⟨hcur, Nat.zero_le _⟩
  | cons o rest ih =>
    intro cur acc hcur
    rw [searchIterationLoop_cons]
    by_cases hlt : cur < cfg.maxSearchIterations
    · rw [if_pos hlt]
      cases hstep : loopStep cfg ctxQuery o cur acc with
      | inl result =>
        simp only [hstep]
        obtain ⟨hc, hr⟩ := loopStep_inl cfg ctxQuery o cur acc result hstep
        exact ⟨by rw [hc]; exact hcur, by omega⟩
      | inr acc2 =>
        simp only [hstep]
        obtain ⟨ih1, ih2⟩ := ih (cur + 1) acc2 hlt
        exact ⟨ih1, by omega⟩
    · rw [if_neg hlt]
      exact ⟨hcur, Nat.zero_le _⟩

/-- When the loop counter has reached the ceiling, the loop exits at once
whatever oracles remain. -/
theorem searchIterationLoop_stopped (cfg : OrchestrationConfig)
    (ctxQuery : String) (oracles : List IterOracle) (cur : ℕ)
    (acc : List SearchResponse) (h : ¬ cur < cfg.maxSearchIterations) :
    searchIterationLoop cfg ctxQuery oracles cur acc = (cur, acc, 0) := by
  cases oracles with
  | nil => rfl
  | cons o rest =>
    show (if cur < cfg.maxSearchIterations then _ else _) = _
    rw [if_neg h]

theorem loopStep_guards (cfg : OrchestrationConfig) (ctxQuery : String)
    (o : IterOracle) (cur : ℕ) (acc : List SearchResponse)
    (a : ResultAnalysis) (fq : List String)
    (hana : analyzeSearchResults ctxQuery acc o.analysisSvc = some a)
    (hnm : a.needsMoreSearch = true)
    (hge : jsGe a.completeness cfg.completenessThreshold = false)
    (hgaps : a.informationGaps.length ≠ 0)
    (hfq : (generateFollowupQueries cfg ctxQuery a o.followupSvc).1 = some fq)
    (hfqlen : fq.length ≠ 0) :
    loopStep cfg ctxQuery o cur acc
      = if o.searchResults.length = 0 then .inl (cur, acc, 1)
        else if (o.searchResults.map (·.items.length)).sum = 0
            ∨ (aggregateResults cfg (acc ++ o.searchResults)).items.length
              ≤ (acc.map (·.items.length)).sum then
          .inl (cur, acc ++ o.searchResults, 1)
        else .inr (acc ++ o.searchResults) := by
  have hcond : (!a.needsMoreSearch
      || jsGe a.completeness cfg.completenessThreshold) = false := by
    rw [hnm, hge]; rfl
  simp only [loopStep, hana, hcond, Bool.false_eq_true, if_false, hfq]
  rw [if_neg hgaps, if_neg hfqlen]

/-- C4.  With iterative search enabled, the completed-iteration counter
never exceeds the configured `maxSearchIterations` and strictly fewer
follow-up rounds than `maxSearchIterations` are performed (precondition
`maxSearchIterations ≥ 1`); and in the scenario — `maxSearchIterations`
equal to 2, a first analysis succeeding with completeness 50 (below the
threshold), `needsMoreSearch` true and non-empty gaps, and a follow-up
generation that yields queries — exactly one follow-up search round is
performed, whatever the remaining oracles (in particular the second
analysis) would have said. -/
theorem search_iteration_ceiling (cfg : OrchestrationConfig)
    (ctxQuery : String) (oracles : List IterOracle)
    (initialResults : List SearchResponse)
    (hmax : 1 ≤ cfg.maxSearchIterations) :
    (runIterativeSearch cfg ctxQuery oracles initialResults).1
        ≤ cfg.maxSearchIterations
      ∧ (runIterativeSearch cfg ctxQuery oracles initialResults).2.2
        < cfg.maxSearchIterations
      ∧ (cfg.maxSearchIterations = 2 → cfg.enableIterativeSearch = true →
          ∀ (o : IterOracle) (a : ResultAnalysis) (fq : List String)
            (rest : List IterOracle),
            analyzeSearchResults ctxQuery initialResults o.analysisSvc
              = some a →
            a.needsMoreSearch = true →
            a.completeness = JsNum.num 50 →
            (50 : ℚ) < cfg.completenessThreshold →
            a.informationGaps.length ≠ 0 →
            (generateFollowupQueries cfg ctxQuery a o.followupSvc).1
              = some fq →
            fq.length ≠ 0 →
            (runIterativeSearch cfg ctxQuery (o :: rest)
              initialResults).2.2 = 1) := by
  refine ⟨?_, ?_, ?_⟩
  · unfold runIterativeSearch
    by_cases hg : cfg.enableIterativeSearch = true
        ∧ 1 < cfg.maxSearchIterations
    · rw [if_pos hg]
      exact (searchIterationLoop_bounds cfg ctxQuery oracles 1
        initialResults (by omega)).1
    · rw [if_neg hg]
      exact hmax
  · unfold runIterativeSearch
    by_cases hg : cfg.enableIterativeSearch = true
        ∧ 1 < cfg.maxSearchIterations
    · rw [if_pos hg]
      have := (searchIterationLoop_bounds cfg ctxQuery oracles 1
        initialResults (by omega)).2
      omega
    · rw [if_neg hg]
      show 0 < cfg.maxSearchIterations
      omega
  · intro hm2 hen o a fq rest hana hnm hc50 hthr hgaps hfq hfqlen
    have hge : jsGe a.completeness cfg.completenessThreshold = false := by
      rw [hc50]
      unfold jsGe
      simp [not_le.mpr hthr]
    have h12 : (1 : ℕ) < cfg.maxSearchIterations := by omega
    rw [runIterativeSearch, if_pos ⟨hen, h12⟩, searchIterationLoop_cons,
      if_pos h12,
      loopStep_guards cfg ctxQuery o 1 initialResults a fq hana hnm hge
        hgaps hfq hfqlen]
    by_cases h1 : o.searchResults.length = 0
    · rw [if_pos h1]
    · rw [if_neg h1]
      by_cases h2 : (o.searchResults.map (·.items.length)).sum = 0
          ∨ (aggregateResults cfg
              (initialResults ++ o.searchResults)).items.length
            ≤ (initialResults.map (·.items.length)).sum
      · rw [if_pos h2]
      · rw [if_neg h2]
        show (searchIterationLoop cfg ctxQuery rest (1 + 1) _).2.2 + 1 = 1
        rw [searchIterationLoop_stopped cfg ctxQuery rest (1 + 1) _
          (by omega)]

/-- An iterative configuration with the default ceiling of 2. -/
def iterCfg2 : OrchestrationConfig :=
  { defaultConfig with enableIterativeSearch := true }

/-- An iterative configuration with ceiling 3 (used to show that a stop is
not caused by the ceiling). -/
def iterCfg3 : OrchestrationConfig :=
  { defaultConfig with
    enableIterativeSearch := true
    maxSearchIterations := 3 }

/-- An analyzer payload reporting completeness 50, more search needed and
one gap — the scenario first analysis. -/
def continueAnalysisPayload : List (String × JValue) :=
  [("completeness", JValue.num 50), ("needsMoreSearch", JValue.bool true),
   ("informationGaps", JValue.arr [JValue.str "Missing recent studies"])]

/-- The validated scenario analysis. -/
def scenarioAnalysis : ResultAnalysis :=
  parseAnalysisResponse (some continueAnalysisPayload) "q"

/-- An iteration oracle whose analysis asks to continue and whose follow-up
generation yields one query; the follow-up searches return the given
batches. -/
def followupOracle (batches : List SearchResponse) : IterOracle :=
  { analysisSvc := some (some continueAnalysisPayload)
    followupSvc := some "1. recent scientific studies"
    searchResults := batches }

/-- A batch with one fresh URL. -/
def freshBatch : SearchResponse := batchOf [itemWithUrl "b"]

/-- A batch holding the same URL twice (raw item count 2, unique count 1). -/
def dupBatch : SearchResponse :=
  batchOf [itemWithUrl "a", itemWithUrl "a"]

/-- Witness for C4: under the default-derived iterative configuration with
ceiling 2 and the scenario oracle, the bounds hold and exactly one
follow-up round is performed even though a second, continueing oracle is
available. -/
theorem search_iteration_ceiling_witness :
    1 ≤ iterCfg2.maxSearchIterations
      ∧ ((runIterativeSearch iterCfg2 "q"
            [followupOracle [freshBatch], followupOracle [freshBatch]]
            [batchOf [itemWithUrl "a"]]).1 ≤ iterCfg2.maxSearchIterations)
      ∧ (runIterativeSearch iterCfg2 "q"
            [followupOracle [freshBatch], followupOracle [freshBatch]]
            [batchOf [itemWithUrl "a"]]).2.2 = 1 :=
  ⟨by decide,
   (search_iteration_ceiling iterCfg2 "q"
     [followupOracle [freshBatch], followupOracle [freshBatch]]
     [batchOf [itemWithUrl "a"]] (by decide)).1,
   (search_iteration_ceiling iterCfg2 "q"
     [followupOracle [freshBatch], followupOracle [freshBatch]]
     [batchOf [itemWithUrl "a"]] (by decide)).2.2 rfl rfl
     (followupOracle [freshBatch]) scenarioAnalysis
     ["recent scientific studies"] [followupOracle [freshBatch]] rfl
     (by decide) (by decide) (by decide) (by decide) (by decide)
     (by decide)⟩

/-- Counterexample for C3: accumulated batches holding the same URL twice
(raw total 2, deduplicated unique count 1) and a follow-up batch with one
new URL.  After the merge the deduplicated unique count is 2, which
strictly exceeds the deduplicated unique count 1 before the merge, so the
claimed condition says the iteration must continue; but the source compares
against the RAW pre-merge total 2, so the check `2 <= 2` fires and the loop
stops after its first round even though the ceiling (3) is not reached, the
analysis asked to continue, follow-up queries existed and the new batch was
non-empty with one item. -/
theorem diminishing_returns_spec_mismatch :
    (searchIterationLoop iterCfg3 "q"
        [followupOracle [freshBatch], followupOracle [freshBatch]] 1
        [dupBatch]).1 = 1
      ∧ (searchIterationLoop iterCfg3 "q"
          [followupOracle [freshBatch], followupOracle [freshBatch]] 1
          [dupBatch]).2.2 = 1
      ∧ loopStep iterCfg3 "q" (followupOracle [freshBatch]) 1 [dupBatch]
          = .inl (1, [dupBatch, freshBatch], 1)
      ∧ (([freshBatch] : List SearchResponse).map
          (·.items.length)).sum = 1
      ∧ ¬ ((dedupByUrl (([dupBatch, freshBatch] :
              List SearchResponse).flatMap (·.items))).length
            ≤ (dedupByUrl (([dupBatch] :
              List SearchResponse).flatMap (·.items))).length) := by
  exact ⟨by decide, by decide, by decide, by decide, by decide⟩

/-- C3 amended.  When an iteration reaches the merge point (counter below
the ceiling, analysis successful and asking to continue, non-empty gaps,
follow-up queries generated, non-empty follow-up batches), the
diminishing-returns stop fires exactly when the new batches hold zero items
in total or the deduplicated-and-capped item count after the merge does not
exceed (`<=`) the RAW, non-deduplicated item total of the accumulated
batches before the merge; when it fires the loop returns at once — the
remaining oracles are never consulted — keeping the merged batches, and
when it does not fire the loop recurses into the next iteration. -/
theorem diminishing_returns_stop (cfg : OrchestrationConfig)
    (ctxQuery : String) (o : IterOracle) (rest : List IterOracle) (cur : ℕ)
    (acc : List SearchResponse) (a : ResultAnalysis) (fq : List String)
    (hcur : cur < cfg.maxSearchIterations)
    (hana : analyzeSearchResults ctxQuery acc o.analysisSvc = some a)
    (hnm : a.needsMoreSearch = true)
    (hge : jsGe a.completeness cfg.completenessThreshold = false)
    (hgaps : a.informationGaps.length ≠ 0)
    (hfq : (generateFollowupQueries cfg ctxQuery a o.followupSvc).1 = some fq)
    (hfqlen : fq.length ≠ 0)
    (hnr : o.searchResults.length ≠ 0) :
    ((o.searchResults.map (·.items.length)).sum = 0
        ∨ (aggregateResults cfg (acc ++ o.searchResults)).items.length
          ≤ (acc.map (·.items.length)).sum →
      searchIterationLoop cfg ctxQuery (o :: rest) cur acc
        = (cur, acc ++ o.searchResults, 1))
    ∧ (¬ ((o.searchResults.map (·.items.length)).sum = 0
        ∨ (aggregateResults cfg (acc ++ o.searchResults)).items.length
          ≤ (acc.map (·.items.length)).sum) →
      searchIterationLoop cfg ctxQuery (o :: rest) cur acc
        = ((searchIterationLoop cfg ctxQuery rest (cur + 1)
              (acc ++ o.searchResults)).1,
           (searchIterationLoop cfg ctxQuery rest (cur + 1)
              (acc ++ o.searchResults)).2.1,
           (searchIterationLoop cfg ctxQuery rest (cur + 1)
              (acc ++ o.searchResults)).2.2 + 1)) := by
  have hbase := loopStep_guards cfg ctxQuery o cur acc a fq hana hnm hge
    hgaps hfq hfqlen
  rw [if_neg hnr] at hbase
  constructor
  · intro hdim
    rw [searchIterationLoop_cons, if_pos hcur, hbase, if_pos hdim]
  · intro hdim
    rw [searchIterationLoop_cons, if_pos hcur, hbase, if_neg hdim]

/-- Witness for the amended C3: on the counterexample data the condition
holds (2 is not greater than the raw pre-merge total 2) and the loop stops
with the merged batches after its single round. -/
theorem diminishing_returns_stop_witness :
    ((1 < iterCfg3.maxSearchIterations)
      ∧ (analyzeSearchResults "q" [dupBatch]
          (followupOracle [freshBatch]).analysisSvc = some scenarioAnalysis)
      ∧ scenarioAnalysis.needsMoreSearch = true
      ∧ jsGe scenarioAnalysis.completeness iterCfg3.completenessThreshold
          = false
      ∧ scenarioAnalysis.informationGaps.length ≠ 0
      ∧ (generateFollowupQueries iterCfg3 "q" scenarioAnalysis
          (followupOracle [freshBatch]).followupSvc).1
          = some ["recent scientific studies"]
      ∧ (["recent scientific studies"] : List String).length ≠ 0
      ∧ (followupOracle [freshBatch]).searchResults.length ≠ 0
      ∧ (((followupOracle [freshBatch]).searchResults.map
            (·.items.length)).sum = 0
          ∨ (aggregateResults iterCfg3
              ([dupBatch] ++ (followupOracle [freshBatch]).searchResults)).items.length
            ≤ (([dupBatch] : List SearchResponse).map
              (·.items.length)).sum))
    ∧ searchIterationLoop iterCfg3 "q"
        [followupOracle [freshBatch], followupOracle [freshBatch]] 1
        [dupBatch]
        = (1, [dupBatch] ++ (followupOracle [freshBatch]).searchResults, 1) :=
  ⟨⟨by decide, rfl, by decide, by decide, by decide, by decide, by decide,
    by decide, by decide⟩,
   (diminishing_returns_stop iterCfg3 "q" (followupOracle [freshBatch])
     [followupOracle [freshBatch]] 1 [dupBatch] scenarioAnalysis
     ["recent scientific studies"] (by decide) rfl (by decide) (by decide)
     (by decide) (by decide) (by decide) (by decide)).1 (by decide)⟩
